import Mathlib

/-!
Verification of the capture-and-compose pipeline of the StableDiffusionTools
subsystem (StableDiffusionSubsystem.cpp), as a shallow embedding in Lean 4.

Machine integers of the source (int32 sizes, pixel counts) are modelled as
Nat; the sizes involved are small and the source never relies on overflow.
A pixel buffer is a list of optional colors: `none` stands for an entry the
source allocated but never wrote (TArray::InsertUninitialized leaves such
entries with indeterminate content).
-/

namespace SDSubsystem

/-- FIntPoint: a two-dimensional integer size or coordinate. -/
structure IntPoint where
  x : Nat
  y : Nat
deriving DecidableEq, Repr

/-- FColor pixel values, abstracted. -/
abbrev Color := Nat

/-- A pixel buffer; `none` marks an allocated-but-unwritten entry. -/
abbrev PixelBuf := List (Option Color)

/-- One row-copy loop iteration sequence of UStableDiffusionSubsystem::CopyFrameData:
starting at source offset `srcOfs`, copy `maxWidth` consecutive pixels per row,
advancing the source cursor by `bufWidth` (the source stride) after each row and
the destination cursor by `maxWidth`.  The returned list is exactly the sequence
of pixels written, in destination order. -/
def copyRows (maxWidth bufWidth srcOfs rows : Nat) (src : Nat → Color) : List Color :=
  match rows with
  | 0 => []
  | Nat.succ r =>
      ((List.range maxWidth).map (fun c => src (srcOfs + c))) ++
        copyRows maxWidth bufWidth (srcOfs + bufWidth) r src

/-- UStableDiffusionSubsystem::CopyFrameData.  Allocates TargetSize.X * TargetSize.Y
uninitialized entries, then copies min(TargetSize.Y, BufferSize.Y) rows of
min(TargetSize.X, BufferSize.X) pixels each from the source buffer (stride
BufferSize.X) into the front of the destination, the destination cursor advancing
by the clamped width after each row.  Entries past the written prefix stay
uninitialized (`none`). -/
def CopyFrameData (TargetSize BufferSize : IntPoint) (ColorBuffer : Nat → Color) : PixelBuf :=
  let maxWidth := min TargetSize.x BufferSize.x
  let written := copyRows maxWidth BufferSize.x 0 (min TargetSize.y BufferSize.y) ColorBuffer
  written.map some ++ List.replicate (TargetSize.x * TargetSize.y - written.length) none

/-- ELevelViewportType and layer processor classes, collapsed to the kinds the
pipeline distinguishes.  A kind stands for the concrete ULayerProcessorBase
subclass of an FLayerData entry; `finalColor` corresponds to
UFinalColorLayerProcessor (the class tested by IsA in CaptureFromViewportSource). -/
inductive LayerKind where
  | finalColor
  | depth
  | normals
  | custom (n : Nat)
deriving DecidableEq, Repr

/-- USceneCaptureComponent2D, reduced to what the subsystem reads: an identity
tag and the optional TextureTarget resolution consulted by
CaptureFromSceneCaptureSource to choose the capture size. -/
structure SceneCaptureComp where
  tag : Nat
  textureTarget : Option IntPoint
deriving DecidableEq, Repr

/-- The capture component of the transient ASceneCapture2D spawned by
CreateSceneCaptureCamera: freshly spawned, so its TextureTarget is unset. -/
def transientCaptureComp : SceneCaptureComp :=
  { tag := 0, textureTarget := none }

/-- FViewportSceneCapture: the transient capture actor handle.  `sceneCapture = none`
is the sentinel returned when no perspective viewport was found (the struct is
returned with its SceneCapture pointer still null). -/
structure ViewportSceneCapture where
  sceneCapture : Option SceneCaptureComp
deriving DecidableEq, Repr

/-- Modelled from the spec: FStableDiffusionGenerationOptions, reduced to the
output size fields InSizeX/InSizeY that the capture paths stamp. -/
structure GenerationOptions where
  inSizeX : Nat
  inSizeY : Nat
deriving DecidableEq, Repr

/-- Modelled from the spec: FLayerData, a layer kind (standing for its processor
object) together with the LayerPixels buffer filled during capture. -/
structure LayerData where
  kind : LayerKind
  layerPixels : PixelBuf
deriving DecidableEq, Repr

/-- Modelled from the spec: FStableDiffusionInput, the generation request —
options, an optional explicit CaptureSource, and the ProcessedLayers filled in
during capture. -/
structure SDInput where
  options : GenerationOptions
  captureSource : Option SceneCaptureComp
  processedLayers : List LayerData
deriving DecidableEq, Repr

/-- Modelled from the spec: FStableDiffusionImageResult, carrying its
success/failure indicator as data together with the output pixels. -/
structure ImageResult where
  success : Bool
  pixels : PixelBuf
deriving DecidableEq, Repr

/-- The execution context an action runs on. -/
inductive ExecCtx where
  | gameThread
  | backgroundWorker
  | renderThread
deriving DecidableEq, Repr

/-- Observable actions of one pipeline run. -/
inductive Event where
  | grabberStarted
  | grabberStopped
  | cameraCreated
  | cameraDestroyed
  | layerCapture (kind : LayerKind) (target : Option SceneCaptureComp)
  | backendDispatch (input : SDInput)
  | publishResult (result : ImageResult)
  | stopSignaled
  | upsampleDispatch
  | publishUpsample (result : ImageResult)
deriving DecidableEq, Repr

/-- A trace of context-tagged events. -/
abbrev Trace := List (ExecCtx × Event)

/-- The frame the FFrameGrabber delivers on the render thread: the color buffer
with its BufferSize, and the TargetSize of the grab. -/
structure Frame where
  bufferSize : IntPoint
  targetSize : IntPoint
  pixels : Nat → Color

/-- External collaborators of the subsystem: the active viewport (and its size),
whether a perspective level viewport exists, the frame the grabber will deliver,
the layer processor outputs, and the generation backend. -/
structure Env where
  viewport : Option IntPoint
  perspectiveViewportExists : Bool
  frame : Frame
  layerContent : LayerKind → SceneCaptureComp → PixelBuf
  backendGenerate : SDInput → ImageResult
  backendUpsample : ImageResult → ImageResult

/-- The UStableDiffusionSubsystem fields the pipeline reads and writes:
GeneratorBridge presence, the bIsGenerating and bIsUpsampling flags,
ModelInitialised, and ModelOptions.Layers. -/
structure SDState where
  generatorBridge : Bool
  bIsGenerating : Bool
  bIsUpsampling : Bool
  modelInitialised : Bool
  modelLayers : List LayerData
deriving DecidableEq, Repr

/-- Modelled from the spec: ULayerProcessorBase::BeginCaptureLayer, CaptureLayer,
EndCaptureLayer and ProcessLayer (the LayerProcessors sources are not part of
this repository snapshot).  Processors tolerate a null capture target and
become no-ops returning an empty buffer; with a real target the Begin, Capture,
End, Process sequence yields that layer kind pixel content for the target. -/
def processLayer (env : Env) (kind : LayerKind) (target : Option SceneCaptureComp) : PixelBuf :=
  match target with
  | none => []
  | some comp => env.layerContent kind comp

/-- UStableDiffusionSubsystem::CreateSceneCaptureCamera.  Scans the level
viewport clients for a perspective one; if none is found, the
FViewportSceneCapture is returned with its SceneCapture still null (the
sentinel) and nothing is spawned.  Otherwise a transient ASceneCapture2D is
spawned and configured, and its transform mirrored from the viewport. -/
def CreateSceneCaptureCamera (env : Env) : ViewportSceneCapture × Trace :=
  if env.perspectiveViewportExists then
    ({ sceneCapture := some transientCaptureComp }, [(ExecCtx.gameThread, Event.cameraCreated)])
  else
    ({ sceneCapture := none }, [])

/-- ASceneCapture2D::GetCaptureComponent2D invoked on a possibly-null actor
pointer: dereferencing the sentinel null actor is a fault (`none`). -/
def getCaptureComponent2D (cam : ViewportSceneCapture) : Option SceneCaptureComp :=
  cam.sceneCapture

/-- UStableDiffusionSubsystem::StartImageGeneration.  Dispatches the composed
request to a background worker which calls GeneratorBridge
GenerateImageFromStartImage, clears bIsGenerating when the call returns, and
publishes the result (success or failure, carried as data) on the game thread. -/
def StartImageGeneration (s : SDState) (env : Env) (input : SDInput) : SDState × Trace :=
  ({ s with bIsGenerating := false },
   [(ExecCtx.backgroundWorker, Event.backendDispatch input),
    (ExecCtx.gameThread, Event.publishResult (env.backendGenerate input))])

/-- TArray::FindByPredicate for UFinalColorLayerProcessor followed by the
assignment of the copied frame: the first final-color layer of the list, if
any, has its LayerPixels replaced; every other entry is untouched. -/
def overwriteFirstFinalColor (layers : List LayerData) (pix : PixelBuf) : List LayerData :=
  match layers with
  | [] => []
  | L :: rest =>
      if L.kind = LayerKind.finalColor then { L with layerPixels := pix } :: rest
      else L :: overwriteFirstFinalColor rest pix

/-- UStableDiffusionSubsystem::CaptureFromViewportSource.  Reads the capturing
viewport size (faulting when there is no viewport), starts the frame grabber,
runs the per-layer capture pass against a freshly created transient capture
camera when ModelOptions declares layers (dereferencing the camera actor, so
the sentinel faults), then on render-thread frame delivery copies the frame,
injects it into the first final-color layer slot, stops the grabber, stamps the
request size from the viewport, and starts image generation. -/
def CaptureFromViewportSource (s : SDState) (env : Env) (input : SDInput) :
    Option (SDState × Trace) :=
  match env.viewport with
  | none => none
  | some viewportSize =>
    let evStart : Trace := [(ExecCtx.gameThread, Event.grabberStarted)]
    let layerPass : Option (SDInput × Trace) :=
      if s.modelLayers.isEmpty then
        some (input, [])
      else
        let (cam, evCam) := CreateSceneCaptureCamera env
        match getCaptureComponent2D cam with
        | none => none
        | some comp =>
          let processed := s.modelLayers.map
            (fun L => { L with layerPixels := processLayer env L.kind (some comp) })
          let evLayers : Trace := s.modelLayers.map
            (fun L => (ExecCtx.gameThread, Event.layerCapture L.kind (some comp)))
          some ({ input with processedLayers := processed },
                evCam ++ evLayers ++ [(ExecCtx.gameThread, Event.cameraDestroyed)])
    match layerPass with
    | none => none
    | some (input1, evLayers) =>
      let copiedFrame := CopyFrameData env.frame.targetSize env.frame.bufferSize env.frame.pixels
      let input2 := { input1 with
        processedLayers := overwriteFirstFinalColor input1.processedLayers copiedFrame }
      let input3 := { input2 with
        options := { input2.options with inSizeX := viewportSize.x, inSizeY := viewportSize.y } }
      let (s1, evGen) := StartImageGeneration s env input3
      some (s1, evStart ++ evLayers ++ [(ExecCtx.renderThread, Event.grabberStopped)] ++ evGen)

/-- UStableDiffusionSubsystem::CaptureFromSceneCaptureSource.  Uses the request
explicit CaptureSource if supplied, else creates a transient capture camera and
dereferences its actor (faulting on the sentinel).  The capture size comes from
the component TextureTarget, falling back to the viewport size (faulting when
there is no viewport).  Every declared layer is captured from that single
component; the size is stamped, the transient camera (if created) destroyed,
and image generation started. -/
def CaptureFromSceneCaptureSource (s : SDState) (env : Env) (input : SDInput) :
    Option (SDState × Trace) :=
  let compAndTrace : Option (SceneCaptureComp × Trace) :=
    match input.captureSource with
    | none =>
        let (cam, evCam) := CreateSceneCaptureCamera env
        match getCaptureComponent2D cam with
        | none => none
        | some comp => some (comp, evCam)
    | some comp => some (comp, [])
  match compAndTrace with
  | none => none
  | some (comp, evCam) =>
    match env.viewport with
    | none => none
    | some viewportSize =>
      let captureSize := comp.textureTarget.getD viewportSize
      let processed := s.modelLayers.map
        (fun L => { L with layerPixels := processLayer env L.kind (some comp) })
      let evLayers : Trace := s.modelLayers.map
        (fun L => (ExecCtx.gameThread, Event.layerCapture L.kind (some comp)))
      let input1 := { input with
        processedLayers := processed,
        options := { input.options with inSizeX := captureSize.x, inSizeY := captureSize.y } }
      let evDestroy : Trace :=
        if input.captureSource.isNone then [(ExecCtx.gameThread, Event.cameraDestroyed)] else []
      let (s1, evGen) := StartImageGeneration s env input1
      some (s1, evCam ++ evLayers ++ evDestroy ++ evGen)

/-- EInputImageSource: which capture path a generation request uses. -/
inductive EInputImageSource where
  | viewport
  | sceneCapture2D
deriving DecidableEq, Repr

/-- UStableDiffusionSubsystem::GenerateImage.  Returns immediately when no
GeneratorBridge is set (no state change, no events); otherwise sets
bIsGenerating and hands off to the capture path chosen by the image source
type on the game thread (screen messages and game view are saved and restored
around the capture; they are collaborator state and not part of SDState). -/
def GenerateImage (s : SDState) (env : Env) (input : SDInput)
    (srcType : EInputImageSource) : Option (SDState × Trace) :=
  if !s.generatorBridge then
    some (s, [])
  else
    let s1 := { s with bIsGenerating := true }
    match srcType with
    | EInputImageSource.viewport => CaptureFromViewportSource s1 env input
    | EInputImageSource.sceneCapture2D => CaptureFromSceneCaptureSource s1 env input

/-- UStableDiffusionSubsystem::StopGeneratingImage.  Calls
GeneratorBridge StopImageGeneration without any null check — a fault (`none`)
when no bridge is set — then clears bIsGenerating. -/
def StopGeneratingImage (s : SDState) : Option (SDState × Trace) :=
  if s.generatorBridge then
    some ({ s with bIsGenerating := false }, [(ExecCtx.gameThread, Event.stopSignaled)])
  else
    none

/-- UStableDiffusionSubsystem::UpsampleImage.  Returns immediately when no
bridge is set; otherwise sets bIsUpsampling, upsamples on a background worker,
and clears the flag and publishes on the game thread. -/
def UpsampleImage (s : SDState) (env : Env) (input : ImageResult) :
    Option (SDState × Trace) :=
  if !s.generatorBridge then
    some (s, [])
  else
    let result := env.backendUpsample input
    some ({ s with bIsUpsampling := false },
      [(ExecCtx.backgroundWorker, Event.upsampleDispatch),
       (ExecCtx.gameThread, Event.publishUpsample result)])

/-- State component of an optional pipeline outcome. -/
def runState (r : Option (SDState × Trace)) : Option SDState :=
  r.map Prod.fst

/-- Trace component of an optional pipeline outcome (empty on a fault). -/
def runTrace (r : Option (SDState × Trace)) : Trace :=
  match r with
  | none => []
  | some p => p.2

/-- The inputs handed to the generation backend, in order. -/
def dispatchedInputs (tr : Trace) : List SDInput :=
  tr.filterMap (fun e =>
    match e.2 with
    | Event.backendDispatch i => some i
    | _ => none)

/-- The layer captures of a trace: each captured kind with its capture target. -/
def layerCaptureTargets (tr : Trace) : List (LayerKind × Option SceneCaptureComp) :=
  tr.filterMap (fun e =>
    match e.2 with
    | Event.layerCapture k t => some (k, t)
    | _ => none)

/-- Whether an event creates or destroys a transient capture camera. -/
def isCameraEvent : Event → Bool
  | Event.cameraCreated => true
  | Event.cameraDestroyed => true
  | _ => false

/-- How many camera create/destroy actions a trace holds. -/
def countCameraEvents (tr : Trace) : Nat :=
  (tr.filter (fun e => isCameraEvent e.2)).length

/-- The generation results published on the main (game) thread, in order. -/
def publishedOnMain (tr : Trace) : List ImageResult :=
  tr.filterMap (fun e =>
    match e with
    | (ExecCtx.gameThread, Event.publishResult r) => some r
    | _ => none)

/-- The backend generation calls made off the main thread, in order. -/
def backendCallsOffMain (tr : Trace) : List SDInput :=
  tr.filterMap (fun e =>
    match e with
    | (ExecCtx.backgroundWorker, Event.backendDispatch i) => some i
    | _ => none)

/-- Whether some dispatched request carries the given buffer as the pixel
content of one of its layers. -/
def frameInjectedB (tr : Trace) (buf : PixelBuf) : Bool :=
  (dispatchedInputs tr).any (fun inp =>
    inp.processedLayers.any (fun L => L.layerPixels == buf))

/-- A simple concrete pixel source used by concrete instantiations. -/
def idPix : Nat → Color := fun i => i

/-- A concrete offset pixel source for the grabbed frame. -/
def rampPix : Nat → Color := fun i => i + 10

/-- A concrete 2x2 grabbed frame. -/
def frameA : Frame :=
  { bufferSize := ⟨2, 2⟩, targetSize := ⟨2, 2⟩, pixels := rampPix }

/-- A concrete environment: a 2x2 live viewport, a perspective viewport
available, and a backend returning a fixed successful result. -/
def envA : Env :=
  { viewport := some ⟨2, 2⟩
    perspectiveViewportExists := true
    frame := frameA
    layerContent := fun _ _ => [some 7]
    backendGenerate := fun _ => { success := true, pixels := [some 1] }
    backendUpsample := fun r => r }

/-- The scenario environment of the spec: a 1920x1080 viewport. -/
def envScenario : Env :=
  { envA with viewport := some ⟨1920, 1080⟩ }

/-- An environment in which no perspective level viewport exists. -/
def envNoPerspective : Env :=
  { envA with perspectiveViewportExists := false }

/-- A declared final color layer. -/
def layerFC : LayerData :=
  { kind := LayerKind.finalColor, layerPixels := [] }

/-- A declared depth layer. -/
def layerDepth : LayerData :=
  { kind := LayerKind.depth, layerPixels := [] }

/-- A fresh generation request with no explicit capture source. -/
def inputA : SDInput :=
  { options := { inSizeX := 0, inSizeY := 0 }, captureSource := none, processedLayers := [] }

/-- An explicit user-supplied capture component with a 512x512 render target. -/
def compX : SceneCaptureComp :=
  { tag := 5, textureTarget := some ⟨512, 512⟩ }

/-- A request supplying the explicit capture component. -/
def inputExplicit : SDInput :=
  { inputA with captureSource := some compX }

/-- A concrete image result. -/
def resA : ImageResult :=
  { success := true, pixels := [] }

/-- Idle subsystem with a loaded bridge and no declared layers. -/
def sBridge : SDState :=
  { generatorBridge := true, bIsGenerating := false, bIsUpsampling := false,
    modelInitialised := true, modelLayers := [] }

/-- Subsystem with no bridge loaded. -/
def sNoBridge : SDState :=
  { sBridge with generatorBridge := false }

/-- Subsystem with a generation already in flight. -/
def sInFlight : SDState :=
  { sBridge with bIsGenerating := true }

/-- Subsystem whose model was never initialised. -/
def sModelNotInit : SDState :=
  { sBridge with modelInitialised := false }

/-- Subsystem declaring the scenario layers: final color then depth. -/
def sTwoLayers : SDState :=
  { sBridge with modelLayers := [layerFC, layerDepth] }

/-- Subsystem declaring a single final color layer. -/
def sOneLayer : SDState :=
  { sBridge with modelLayers := [layerFC] }

/-! Helper lemmas about the row-copy loop and about traces. -/

theorem copyRows_length (maxWidth bufWidth srcOfs rows : Nat) (src : Nat → Color) :
    (copyRows maxWidth bufWidth srcOfs rows src).length = rows * maxWidth := by
  induction rows generalizing srcOfs with
  | zero => simp [copyRows]
  | succ r ih =>
      simp [copyRows, ih, Nat.succ_mul]
      omega

theorem copyRows_get (maxWidth bufWidth srcOfs rows : Nat) (src : Nat → Color)
    (r c : Nat) (hr : r < rows) (hc : c < maxWidth) :
    (copyRows maxWidth bufWidth srcOfs rows src)[r * maxWidth + c]? =
      some (src (srcOfs + r * bufWidth + c)) := by
  induction rows generalizing srcOfs r with
  | zero => omega
  | succ n ih =>
      cases r with
      | zero =>
          simp only [copyRows, Nat.zero_mul, Nat.zero_add]
          rw [List.getElem?_append_left (by simpa using hc)]
          simp [List.getElem?_range hc]
      | succ r' =>
          have hidx : (r' + 1) * maxWidth + c = maxWidth + (r' * maxWidth + c) := by
            rw [Nat.succ_mul]; omega
          simp only [copyRows, hidx]
          rw [List.getElem?_append_right (by simp)]
          simp only [List.length_map, List.length_range, Nat.add_sub_cancel_left]
          rw [ih (srcOfs + bufWidth) r' (by omega)]
          congr 2
          ring

theorem copyRows_congr (maxWidth bufWidth srcOfs rows : Nat) (src src2 : Nat → Color)
    (h : ∀ r c, r < rows → c < maxWidth →
      src (srcOfs + r * bufWidth + c) = src2 (srcOfs + r * bufWidth + c)) :
    copyRows maxWidth bufWidth srcOfs rows src = copyRows maxWidth bufWidth srcOfs rows src2 := by
  induction rows generalizing srcOfs with
  | zero => rfl
  | succ n ih =>
      simp only [copyRows]
      congr 1
      · apply List.map_congr_left
        intro c hc
        have := h 0 c (by omega) (by simpa using hc)
        simpa using this
      · apply ih
        intro r c hr hc
        have := h (r + 1) c (by omega) hc
        have harith : srcOfs + (r + 1) * bufWidth + c = srcOfs + bufWidth + r * bufWidth + c := by
          rw [Nat.succ_mul]; omega
        rw [harith] at this
        exact this

theorem countCameraEvents_append (t1 t2 : Trace) :
    countCameraEvents (t1 ++ t2) = countCameraEvents t1 + countCameraEvents t2 := by
  simp [countCameraEvents, List.filter_append]

theorem countCameraEvents_layerEvents (l : List LayerData) (c : Option SceneCaptureComp) :
    countCameraEvents
      (l.map (fun L => (ExecCtx.gameThread, Event.layerCapture L.kind c))) = 0 := by
  induction l with
  | nil => rfl
  | cons L rest ih => simp [countCameraEvents, isCameraEvent, List.filter]

theorem layerCaptureTargets_append (t1 t2 : Trace) :
    layerCaptureTargets (t1 ++ t2) = layerCaptureTargets t1 ++ layerCaptureTargets t2 := by
  simp [layerCaptureTargets, List.filterMap_append]

theorem layerCaptureTargets_layerEvents (l : List LayerData) (c : Option SceneCaptureComp) :
    layerCaptureTargets
      (l.map (fun L => (ExecCtx.gameThread, Event.layerCapture L.kind c))) =
      l.map (fun L => (L.kind, c)) := by
  induction l with
  | nil => rfl
  | cons L rest ih => simpa [layerCaptureTargets, List.filterMap] using ih

/-! Claim theorems. -/

/-- C9: for every target size, source size and source buffer, the buffer
CopyFrameData returns holds exactly TargetSize.X * TargetSize.Y entries, and it
is empty exactly when the target is zero-sized; the function is total, so no
other failure mode exists. -/
theorem copyFrameData_output_size (t b : IntPoint) (src : Nat → Color) :
    (CopyFrameData t b src).length = t.x * t.y ∧
    (CopyFrameData t b src = [] ↔ t.x * t.y = 0) := by
  have hlen : (copyRows (min t.x b.x) b.x 0 (min t.y b.y) src).length
      = min t.y b.y * min t.x b.x := copyRows_length ..
  have hle : min t.y b.y * min t.x b.x ≤ t.x * t.y := by
    calc min t.y b.y * min t.x b.x ≤ t.y * t.x :=
          Nat.mul_le_mul (Nat.min_le_left ..) (Nat.min_le_left ..)
      _ = t.x * t.y := Nat.mul_comm ..
  have hL : (CopyFrameData t b src).length = t.x * t.y := by
    simp only [CopyFrameData, List.length_append, List.length_map, List.length_replicate, hlen]
    omega
  refine ⟨hL, ?_⟩
  rw [← List.length_eq_zero, hL]

/-- C4 (counterexample): with target size 4x2 and source size 2x2, the source
pixel at row 1, column 0 is not written to destination position (1, 0) — the
destination entry at linear index 1 * 4 + 0 is left unwritten — while the
destination position (0, 2), whose column lies outside min(4, 2), does receive
a written pixel (the source pixel of row 1, column 0). -/
theorem copyFrameData_dest_position_counterexample :
    (CopyFrameData ⟨4, 2⟩ ⟨2, 2⟩ idPix)[1 * 4 + 0]? = some none ∧
    (CopyFrameData ⟨4, 2⟩ ⟨2, 2⟩ idPix)[0 * 4 + 2]? = some (some (idPix (1 * 2 + 0))) := by
  decide

/-- C4 (amended): CopyFrameData copies row-by-row clamped to
min(TargetSize, BufferSize) in each dimension, reading source pixel (r, c) only
for r and c inside the clamp and writing it to destination linear index
r * min(TargetSize.X, BufferSize.X) + c — the destination rows are packed with
the clamped width as stride, so the destination 2D position equals (r, c) only
when TargetSize.X is at most BufferSize.X — and the output depends on no source
pixel outside the clamped region. -/
theorem copyFrameData_clamped_copy (t b : IntPoint) (src : Nat → Color) (r c : Nat)
    (hr : r < min t.y b.y) (hc : c < min t.x b.x) :
    (CopyFrameData t b src)[r * min t.x b.x + c]? = some (some (src (r * b.x + c))) ∧
    ∀ src2 : Nat → Color,
      (∀ r2 c2, r2 < min t.y b.y → c2 < min t.x b.x →
        src (r2 * b.x + c2) = src2 (r2 * b.x + c2)) →
      CopyFrameData t b src = CopyFrameData t b src2 := by
  constructor
  · have hidx : r * min t.x b.x + c < min t.y b.y * min t.x b.x := by
      have h1 : r * min t.x b.x + c < (r + 1) * min t.x b.x := by
        rw [Nat.succ_mul]; omega
      have h2 : (r + 1) * min t.x b.x ≤ min t.y b.y * min t.x b.x :=
        Nat.mul_le_mul_right _ hr
      omega
    simp only [CopyFrameData]
    rw [List.getElem?_append_left (by simpa [copyRows_length] using hidx)]
    rw [List.getElem?_map]
    rw [copyRows_get _ _ _ _ _ r c hr hc]
    simp
  · intro src2 hagree
    simp only [CopyFrameData]
    have hcr := copyRows_congr (min t.x b.x) b.x 0 (min t.y b.y) src src2 (by
      intro r2 c2 hr2 hc2
      simpa using hagree r2 c2 hr2 hc2)
    rw [hcr]

/-- C4 witness: the amended copy statement at target 2x2, source 2x2, row 1,
column 0. -/
theorem copyFrameData_clamped_copy_witness :
    1 < min 2 2 ∧ 0 < min 2 2 ∧
    (CopyFrameData ⟨2, 2⟩ ⟨2, 2⟩ idPix)[1 * min 2 2 + 0]? = some (some (idPix (1 * 2 + 0))) :=
  ⟨by decide, by decide,
    (copyFrameData_clamped_copy ⟨2, 2⟩ ⟨2, 2⟩ idPix 1 0 (by decide) (by decide)).1⟩

/-- C1 (counterexample): with the in-flight flag already set and a bridge
loaded, a new GenerateImage call is not rejected: the outcome is not the
unchanged-state no-event rejection, and a backend dispatch does occur. -/
theorem generateImage_inflight_not_rejected :
    sInFlight.bIsGenerating = true ∧
    GenerateImage sInFlight envA inputA EInputImageSource.viewport ≠ some (sInFlight, []) ∧
    dispatchedInputs
      (runTrace (GenerateImage sInFlight envA inputA EInputImageSource.viewport)) ≠ [] := by
  decide

/-- C1 (amended): GenerateImage never reads the in-flight flag, so a call made
while bIsGenerating is still set is not rejected: with a bridge loaded it
proceeds exactly as the same call with the flag clear would. -/
theorem generateImage_ignores_inflight_flag (s : SDState) (env : Env) (input : SDInput)
    (k : EInputImageSource) (hb : s.generatorBridge = true) :
    GenerateImage { s with bIsGenerating := true } env input k =
      GenerateImage { s with bIsGenerating := false } env input k := by
  cases s
  subst hb
  rfl

/-- C1 witness: the flag-insensitivity statement at a concrete idle state. -/
theorem generateImage_ignores_inflight_flag_witness :
    sBridge.generatorBridge = true ∧
    GenerateImage { sBridge with bIsGenerating := true } envA inputA
        EInputImageSource.viewport =
      GenerateImage { sBridge with bIsGenerating := false } envA inputA
        EInputImageSource.viewport :=
  ⟨rfl, generateImage_ignores_inflight_flag sBridge envA inputA EInputImageSource.viewport rfl⟩

/-- C2 (counterexample): with a bridge loaded but the model never initialised,
GenerateImage does not reject the request: the outcome is not the
unchanged-state no-event rejection, and a backend dispatch does occur. -/
theorem generateImage_uninitialised_model_not_rejected :
    sModelNotInit.modelInitialised = false ∧
    GenerateImage sModelNotInit envA inputA EInputImageSource.viewport ≠
      some (sModelNotInit, []) ∧
    dispatchedInputs
      (runTrace (GenerateImage sModelNotInit envA inputA EInputImageSource.viewport)) ≠ [] := by
  decide

/-- C2 (amended): GenerateImage rejects synchronously exactly when the
generator bridge is absent; the rejection is a silent return — state unchanged
(in particular the in-flight flag keeps its prior clear value) and no event is
emitted, so no NotReady signal reaches the caller — and the model-initialised
flag is never consulted. -/
theorem generateImage_rejects_only_missing_bridge (s : SDState) (env : Env)
    (input : SDInput) (k : EInputImageSource) (hb : s.generatorBridge = false) :
    GenerateImage s env input k = some (s, []) := by
  simp [GenerateImage, hb]

/-- C2 witness: the bridge-absent rejection at a concrete state. -/
theorem generateImage_rejects_only_missing_bridge_witness :
    sNoBridge.generatorBridge = false ∧
    GenerateImage sNoBridge envA inputA EInputImageSource.viewport = some (sNoBridge, []) :=
  ⟨rfl, generateImage_rejects_only_missing_bridge sNoBridge envA inputA
    EInputImageSource.viewport rfl⟩

/-- C8: StartImageGeneration clears the in-flight flag when the backend call
returns — for successful and failed results alike, since the result is carried
as data and not as an exception — invokes the backend off the main thread, and
publishes exactly the backend result on the main thread. -/
theorem startImageGeneration_publishes (s : SDState) (env : Env) (input : SDInput) :
    (StartImageGeneration s env input).1.bIsGenerating = false ∧
    backendCallsOffMain (StartImageGeneration s env input).2 = [input] ∧
    publishedOnMain (StartImageGeneration s env input).2 = [env.backendGenerate input] := by
  refine ⟨rfl, ?_, ?_⟩ <;>
    simp [StartImageGeneration, backendCallsOffMain, publishedOnMain, List.filterMap]

/-- C10: StopGeneratingImage calls into the bridge without the null check that
GenerateImage and UpsampleImage perform, so with no bridge set it faults where
the other two return harmlessly unchanged; with a bridge present the stop is
signaled and the in-flight flag cleared immediately after. -/
theorem stopGeneratingImage_requires_bridge (s : SDState) (env : Env) (input : SDInput)
    (k : EInputImageSource) (r : ImageResult) :
    (s.generatorBridge = false →
      StopGeneratingImage s = none ∧
      GenerateImage s env input k = some (s, []) ∧
      UpsampleImage s env r = some (s, [])) ∧
    (s.generatorBridge = true →
      StopGeneratingImage s =
        some ({ s with bIsGenerating := false }, [(ExecCtx.gameThread, Event.stopSignaled)])) := by
  constructor
  · intro hb
    refine ⟨?_, ?_, ?_⟩ <;> simp [StopGeneratingImage, GenerateImage, UpsampleImage, hb]
  · intro hb
    simp [StopGeneratingImage, hb]

/-- C10 witness: the fault with no bridge and the normal stop with one. -/
theorem stopGeneratingImage_requires_bridge_witness :
    StopGeneratingImage sNoBridge = none ∧
    StopGeneratingImage sBridge =
      some ({ sBridge with bIsGenerating := false }, [(ExecCtx.gameThread, Event.stopSignaled)]) :=
  ⟨((stopGeneratingImage_requires_bridge sNoBridge envA inputA
      EInputImageSource.viewport resA).1 rfl).1,
   (stopGeneratingImage_requires_bridge sBridge envA inputA
      EInputImageSource.viewport resA).2 rfl⟩

/-- C3: on the viewport path with declared layers final-color-then-other, the
delivered live frame (copied by CopyFrameData) overwrites the final color layer
pixels, the other layer keeps the pixels its own off-screen capture from the
transient camera produced, the request size is stamped to the viewport size,
and exactly one backend dispatch occurs. -/
theorem viewport_final_color_overwrite (s : SDState) (env : Env) (input : SDInput)
    (vp : IntPoint) (L1 L2 : LayerData)
    (hb : s.generatorBridge = true)
    (hl : s.modelLayers = [L1, L2])
    (h1 : L1.kind = LayerKind.finalColor)
    (_h2 : L2.kind ≠ LayerKind.finalColor)
    (hvp : env.viewport = some vp)
    (hper : env.perspectiveViewportExists = true) :
    runState (GenerateImage s env input EInputImageSource.viewport) =
      some { s with bIsGenerating := false } ∧
    dispatchedInputs (runTrace (GenerateImage s env input EInputImageSource.viewport)) =
      [{ input with
          processedLayers :=
            [{ L1 with layerPixels :=
                CopyFrameData env.frame.targetSize env.frame.bufferSize env.frame.pixels },
             { L2 with layerPixels := env.layerContent L2.kind transientCaptureComp }],
          options := { input.options with inSizeX := vp.x, inSizeY := vp.y } }] := by
  have key : GenerateImage s env input EInputImageSource.viewport =
      some ({ s with bIsGenerating := false },
        [(ExecCtx.gameThread, Event.grabberStarted),
         (ExecCtx.gameThread, Event.cameraCreated),
         (ExecCtx.gameThread, Event.layerCapture L1.kind (some transientCaptureComp)),
         (ExecCtx.gameThread, Event.layerCapture L2.kind (some transientCaptureComp)),
         (ExecCtx.gameThread, Event.cameraDestroyed),
         (ExecCtx.renderThread, Event.grabberStopped),
         (ExecCtx.backgroundWorker, Event.backendDispatch
           { input with
              processedLayers :=
                [{ L1 with layerPixels :=
                    CopyFrameData env.frame.targetSize env.frame.bufferSize env.frame.pixels },
                 { L2 with layerPixels := env.layerContent L2.kind transientCaptureComp }],
              options := { input.options with inSizeX := vp.x, inSizeY := vp.y } }),
         (ExecCtx.gameThread, Event.publishResult (env.backendGenerate
           { input with
              processedLayers :=
                [{ L1 with layerPixels :=
                    CopyFrameData env.frame.targetSize env.frame.bufferSize env.frame.pixels },
                 { L2 with layerPixels := env.layerContent L2.kind transientCaptureComp }],
              options := { input.options with inSizeX := vp.x, inSizeY := vp.y } }))]) := by
    simp [GenerateImage, hb, CaptureFromViewportSource, hvp, hl, List.isEmpty,
      CreateSceneCaptureCamera, hper, getCaptureComponent2D, processLayer,
      overwriteFirstFinalColor, h1, StartImageGeneration]
  refine ⟨?_, ?_⟩
  · rw [runState, key]
    rfl
  · rw [key]
    simp [runTrace, dispatchedInputs, List.filterMap]

/-- C3 witness: the scenario — 1920x1080 viewport, layers final color and
depth — at concrete states. -/
theorem viewport_final_color_overwrite_witness :
    sTwoLayers.generatorBridge = true ∧
    sTwoLayers.modelLayers = [layerFC, layerDepth] ∧
    layerFC.kind = LayerKind.finalColor ∧
    envScenario.viewport = some ⟨1920, 1080⟩ ∧
    envScenario.perspectiveViewportExists = true ∧
    runState (GenerateImage sTwoLayers envScenario inputA EInputImageSource.viewport) =
      some { sTwoLayers with bIsGenerating := false } ∧
    dispatchedInputs
      (runTrace (GenerateImage sTwoLayers envScenario inputA EInputImageSource.viewport)) =
      [{ inputA with
          processedLayers :=
            [{ layerFC with layerPixels :=
                (CopyFrameData envScenario.frame.targetSize envScenario.frame.bufferSize
                  envScenario.frame.pixels) },
             { layerDepth with layerPixels :=
                envScenario.layerContent layerDepth.kind transientCaptureComp }],
          options := { inputA.options with inSizeX := 1920, inSizeY := 1080 } }] :=
  ⟨rfl, rfl, rfl, rfl, rfl,
    (viewport_final_color_overwrite sTwoLayers envScenario inputA ⟨1920, 1080⟩
      layerFC layerDepth rfl rfl rfl (by decide) rfl rfl).1,
    (viewport_final_color_overwrite sTwoLayers envScenario inputA ⟨1920, 1080⟩
      layerFC layerDepth rfl rfl rfl (by decide) rfl rfl).2⟩

/-- C6 (counterexample): with zero declared layers the viewport-path call still
dispatches, but the dispatched request carries no layer at all, so its pixel
content does not equal the (nonempty) copied live frame — the grabbed frame is
discarded. -/
theorem viewport_zero_layers_counterexample :
    sBridge.modelLayers = [] ∧
    dispatchedInputs
      (runTrace (GenerateImage sBridge envA inputA EInputImageSource.viewport)) ≠ [] ∧
    CopyFrameData envA.frame.targetSize envA.frame.bufferSize envA.frame.pixels ≠ [] ∧
    frameInjectedB (runTrace (GenerateImage sBridge envA inputA EInputImageSource.viewport))
      (CopyFrameData envA.frame.targetSize envA.frame.bufferSize envA.frame.pixels) = false := by
  decide

/-- C6 (amended): a viewport-path call with zero declared layers and a fresh
request still proceeds: no layer capture and no transient camera occur and
exactly one backend dispatch happens with the size stamped to the viewport —
but no final color slot exists, so the copied live frame is discarded and the
dispatched request keeps its empty layer list. -/
theorem viewport_zero_layers_frame_discarded (s : SDState) (env : Env) (input : SDInput)
    (vp : IntPoint)
    (hb : s.generatorBridge = true)
    (hl : s.modelLayers = [])
    (hpl : input.processedLayers = [])
    (hvp : env.viewport = some vp) :
    runState (GenerateImage s env input EInputImageSource.viewport) =
      some { s with bIsGenerating := false } ∧
    dispatchedInputs (runTrace (GenerateImage s env input EInputImageSource.viewport)) =
      [{ input with
          processedLayers := [],
          options := { input.options with inSizeX := vp.x, inSizeY := vp.y } }] ∧
    layerCaptureTargets (runTrace (GenerateImage s env input EInputImageSource.viewport)) = [] ∧
    countCameraEvents (runTrace (GenerateImage s env input EInputImageSource.viewport)) = 0 := by
  have key : GenerateImage s env input EInputImageSource.viewport =
      some ({ s with bIsGenerating := false },
        [(ExecCtx.gameThread, Event.grabberStarted),
         (ExecCtx.renderThread, Event.grabberStopped),
         (ExecCtx.backgroundWorker, Event.backendDispatch
           { input with
              processedLayers := [],
              options := { input.options with inSizeX := vp.x, inSizeY := vp.y } }),
         (ExecCtx.gameThread, Event.publishResult (env.backendGenerate
           { input with
              processedLayers := [],
              options := { input.options with inSizeX := vp.x, inSizeY := vp.y } }))]) := by
    simp [GenerateImage, hb, CaptureFromViewportSource, hvp, hl, hpl, List.isEmpty,
      overwriteFirstFinalColor, StartImageGeneration]
  refine ⟨?_, ?_, ?_, ?_⟩
  · rw [runState, key]
    rfl
  · rw [key]
    simp [runTrace, dispatchedInputs, List.filterMap]
  · rw [key]
    simp [runTrace, layerCaptureTargets, List.filterMap]
  · rw [key]
    simp [runTrace, countCameraEvents, isCameraEvent, List.filter]

/-- C6 witness: the zero-layer viewport call at concrete states. -/
theorem viewport_zero_layers_frame_discarded_witness :
    sBridge.generatorBridge = true ∧
    sBridge.modelLayers = [] ∧
    inputA.processedLayers = [] ∧
    envA.viewport = some ⟨2, 2⟩ ∧
    runState (GenerateImage sBridge envA inputA EInputImageSource.viewport) =
      some { sBridge with bIsGenerating := false } ∧
    dispatchedInputs (runTrace (GenerateImage sBridge envA inputA EInputImageSource.viewport)) =
      [{ inputA with
          processedLayers := [],
          options := { inputA.options with inSizeX := 2, inSizeY := 2 } }] :=
  ⟨rfl, rfl, rfl, rfl,
    (viewport_zero_layers_frame_discarded sBridge envA inputA ⟨2, 2⟩ rfl rfl rfl rfl).1,
    (viewport_zero_layers_frame_discarded sBridge envA inputA ⟨2, 2⟩ rfl rfl rfl rfl).2.1⟩

/-- C5 (counterexample): with no perspective viewport, capture-camera creation
does return the sentinel handle, yet the downstream viewport-path capture of a
declared layer faults on the sentinel instead of no-oping. -/
theorem sentinel_camera_counterexample :
    (CreateSceneCaptureCamera envNoPerspective).1.sceneCapture = none ∧
    GenerateImage sOneLayer envNoPerspective inputA EInputImageSource.viewport = none := by
  decide

/-- C5 (amended): when no perspective viewport exists, CreateSceneCaptureCamera
returns the sentinel no-camera handle rather than failing, and a layer
processor given a null capture target no-ops returning an empty buffer; but the
subsystem capture paths never check the sentinel — they dereference the null
capture actor to fetch its component — so layer capture with declared layers on
the viewport path, and the scene-capture path without an explicit source, fault
instead of no-oping. -/
theorem sentinel_camera_faults_downstream (s : SDState) (env : Env) (input : SDInput)
    (vp : IntPoint) (k : LayerKind)
    (hper : env.perspectiveViewportExists = false)
    (hvp : env.viewport = some vp)
    (hl : s.modelLayers ≠ [])
    (hcs : input.captureSource = none) :
    (CreateSceneCaptureCamera env).1.sceneCapture = none ∧
    processLayer env k none = [] ∧
    CaptureFromViewportSource s env input = none ∧
    CaptureFromSceneCaptureSource s env input = none := by
  obtain ⟨a, l, hML⟩ : ∃ a l, s.modelLayers = a :: l := by
    cases h : s.modelLayers with
    | nil => exact absurd h hl
    | cons a l => exact ⟨a, l, rfl⟩
  refine ⟨?_, rfl, ?_, ?_⟩
  · simp [CreateSceneCaptureCamera, hper]
  · simp [CaptureFromViewportSource, hvp, hML, List.isEmpty,
      CreateSceneCaptureCamera, hper, getCaptureComponent2D]
  · simp [CaptureFromSceneCaptureSource, hcs,
      CreateSceneCaptureCamera, hper, getCaptureComponent2D]

/-- C5 witness: the sentinel and the downstream faults at concrete states. -/
theorem sentinel_camera_faults_downstream_witness :
    envNoPerspective.perspectiveViewportExists = false ∧
    envNoPerspective.viewport = some ⟨2, 2⟩ ∧
    inputA.captureSource = none ∧
    (CreateSceneCaptureCamera envNoPerspective).1.sceneCapture = none ∧
    processLayer envNoPerspective LayerKind.depth none = [] ∧
    CaptureFromViewportSource sOneLayer envNoPerspective inputA = none ∧
    CaptureFromSceneCaptureSource sOneLayer envNoPerspective inputA = none :=
  ⟨rfl, rfl, rfl,
    (sentinel_camera_faults_downstream sOneLayer envNoPerspective inputA ⟨2, 2⟩
      LayerKind.depth rfl rfl (by decide) rfl).1,
    (sentinel_camera_faults_downstream sOneLayer envNoPerspective inputA ⟨2, 2⟩
      LayerKind.depth rfl rfl (by decide) rfl).2.1,
    (sentinel_camera_faults_downstream sOneLayer envNoPerspective inputA ⟨2, 2⟩
      LayerKind.depth rfl rfl (by decide) rfl).2.2.1,
    (sentinel_camera_faults_downstream sOneLayer envNoPerspective inputA ⟨2, 2⟩
      LayerKind.depth rfl rfl (by decide) rfl).2.2.2⟩

/-- C7: a scene-capture-path call that supplies an explicit capture source
creates no transient camera and destroys none — the trace holds no camera
create or destroy action — and every declared layer is captured from the
supplied component. -/
theorem explicit_capture_source_no_transient_camera (s : SDState) (env : Env)
    (input : SDInput) (comp : SceneCaptureComp) (vp : IntPoint)
    (hb : s.generatorBridge = true)
    (hcs : input.captureSource = some comp)
    (hvp : env.viewport = some vp) :
    runState (GenerateImage s env input EInputImageSource.sceneCapture2D) =
      some { s with bIsGenerating := false } ∧
    countCameraEvents
      (runTrace (GenerateImage s env input EInputImageSource.sceneCapture2D)) = 0 ∧
    layerCaptureTargets
      (runTrace (GenerateImage s env input EInputImageSource.sceneCapture2D)) =
      s.modelLayers.map (fun L => (L.kind, some comp)) := by
  have key : GenerateImage s env input EInputImageSource.sceneCapture2D =
      some ({ s with bIsGenerating := false },
        (s.modelLayers.map
          (fun L => (ExecCtx.gameThread, Event.layerCapture L.kind (some comp)))) ++
        [(ExecCtx.backgroundWorker, Event.backendDispatch
           { input with
              processedLayers := s.modelLayers.map
                (fun L => { L with layerPixels := processLayer env L.kind (some comp) }),
              options := { input.options with
                inSizeX := (comp.textureTarget.getD vp).x,
                inSizeY := (comp.textureTarget.getD vp).y } }),
         (ExecCtx.gameThread, Event.publishResult (env.backendGenerate
           { input with
              processedLayers := s.modelLayers.map
                (fun L => { L with layerPixels := processLayer env L.kind (some comp) }),
              options := { input.options with
                inSizeX := (comp.textureTarget.getD vp).x,
                inSizeY := (comp.textureTarget.getD vp).y } }))]) := by
    simp [GenerateImage, hb, CaptureFromSceneCaptureSource, hcs, hvp, StartImageGeneration]
  refine ⟨?_, ?_, ?_⟩
  · rw [runState, key]
    rfl
  · rw [key]
    show countCameraEvents (_ ++ _) = 0
    rw [countCameraEvents_append, countCameraEvents_layerEvents]
    rfl
  · rw [key]
    show layerCaptureTargets (_ ++ _) = _
    rw [layerCaptureTargets_append, layerCaptureTargets_layerEvents]
    simp [layerCaptureTargets, List.filterMap]

/-- C7 witness: the explicit-source call with two declared layers. -/
theorem explicit_capture_source_no_transient_camera_witness :
    sTwoLayers.generatorBridge = true ∧
    inputExplicit.captureSource = some compX ∧
    envA.viewport = some ⟨2, 2⟩ ∧
    runState (GenerateImage sTwoLayers envA inputExplicit EInputImageSource.sceneCapture2D) =
      some { sTwoLayers with bIsGenerating := false } ∧
    countCameraEvents
      (runTrace (GenerateImage sTwoLayers envA inputExplicit
        EInputImageSource.sceneCapture2D)) = 0 ∧
    layerCaptureTargets
      (runTrace (GenerateImage sTwoLayers envA inputExplicit
        EInputImageSource.sceneCapture2D)) =
      [(LayerKind.finalColor, some compX), (LayerKind.depth, some compX)] :=
  ⟨rfl, rfl, rfl,
    (explicit_capture_source_no_transient_camera sTwoLayers envA inputExplicit compX ⟨2, 2⟩
      rfl rfl rfl).1,
    (explicit_capture_source_no_transient_camera sTwoLayers envA inputExplicit compX ⟨2, 2⟩
      rfl rfl rfl).2.1,
    (explicit_capture_source_no_transient_camera sTwoLayers envA inputExplicit compX ⟨2, 2⟩
      rfl rfl rfl).2.2⟩

end SDSubsystem
